import Mathlib

/-
Verification of the ComparePlayer component (src/unnamed/part_000, the
touch-and-mouse variant at lines 341-656): a split-screen video comparison
widget with a draggable divider, audio cross-fade and dual-video sync.

The embedding models the component state held by the React hooks
(sliderValue, isPlaying, isMuted, isDragging) together with the two video
elements referenced by videoARef (Background, the Simulation layer) and
videoBRef (Foreground, the Reality layer).  JavaScript numbers that can be
NaN (the slider value, produced by a Number(...) coercion) are modelled by
the type JSNum; all other numeric quantities are rationals.  Each event
handler and each effect of the source becomes a pure state-transition
function.  Division by a zero-width rectangle follows the rational
convention (x / 0 = 0); no claim exercises that case.
-/

namespace ComparePlayer

/-- A JavaScript number as produced by a Number coercion: either NaN or an
actual (rational) value.  The source also guards sliderValue against
undefined, but sliderValue is only ever assigned 50, a Number coercion or a
clamped position, so the undefined case coincides with nan here. -/
inductive JSNum where
  | nan : JSNum
  | num : ℚ → JSNum
deriving DecidableEq

/-- One video element, as far as the component reads or writes it:
currentTime, volume, the muted flag and whether a play command has been
issued (the playing intent; rejected play promises are swallowed by the
source and do not alter state). -/
structure VideoSurface where
  currentTime : ℚ
  volume : ℚ
  muted : Bool
  playing : Bool
deriving DecidableEq

/-- The component state: the four useState hooks plus the two video
elements.  videoA is the Background (bottom, Simulation) surface, videoB
the Foreground (top, Reality) surface; both refs are attached once the
component has mounted, which is the situation every claim speaks about. -/
structure PlayerState where
  sliderValue : JSNum
  isPlaying : Bool
  isMuted : Bool
  isDragging : Bool
  videoA : VideoSurface
  videoB : VideoSurface
deriving DecidableEq

/-- The layout rectangle returned by getBoundingClientRect, reduced to the
two fields the source reads: left and width. -/
structure Rect where
  left : ℚ
  width : ℚ
deriving DecidableEq

/-- The part of an event target the source inspects: whether
target.closest picks up the compare-divider element, and whether the
target's class list contains compare-slider. -/
structure EventTarget where
  inDivider : Bool
  isSlider : Bool
deriving DecidableEq

/-- The NaN-to-50 normalization the source writes twice, as
isNaN(sliderValue) question-mark 50 colon sliderValue (cross-fade effect,
line 518) and with an additional dead undefined check (safeSliderValue,
line 564); both compute this function on JSNum. -/
def safeNum : JSNum → ℚ
  | JSNum.nan => 50
  | JSNum.num q => q

/-- Source lines 563-564: the slider value actually used for rendering. -/
def safeSliderValue (s : PlayerState) : ℚ :=
  safeNum s.sliderValue

/-- Source lines 364-374, calculatePosition: with no container ref return
50, otherwise translate clientX into a percentage of the container width
and clamp it into the interval from 0 to 100. -/
def calculatePosition (container : Option Rect) (clientX : ℚ) : ℚ :=
  match container with
  | none => 50
  | some rect =>
      let x := clientX - rect.left
      let percentage := x / rect.width * 100
      max 0 (min 100 percentage)

/-- Source lines 552-555, handleSliderChange: store the Number coercion of
the input value, unmodified (stopPropagation only affects event routing). -/
def handleSliderChange (v : JSNum) (s : PlayerState) : PlayerState :=
  { s with sliderValue := v }

/-- Source lines 377-383, handleTouchStart: prevent default, start a drag
and move the divider to the touch position.  The event target is never
inspected; only touches[0].clientX is read. -/
def handleTouchStart (container : Option Rect) (tgt : EventTarget)
    (clientX : ℚ) (s : PlayerState) : PlayerState :=
  { s with isDragging := true,
           sliderValue := JSNum.num (calculatePosition container clientX) }

/-- Source lines 385-391, handleTouchMove: ignored unless a drag is in
progress, otherwise move the divider to the touch position. -/
def handleTouchMove (container : Option Rect) (clientX : ℚ)
    (s : PlayerState) : PlayerState :=
  if !s.isDragging then s
  else { s with sliderValue := JSNum.num (calculatePosition container clientX) }

/-- Source lines 393-395, handleTouchEnd: end the drag. -/
def handleTouchEnd (s : PlayerState) : PlayerState :=
  { s with isDragging := false }

/-- Source lines 398-405, handleMouseDown: start a drag and move the
divider only if the target sits inside the compare-divider element or has
the compare-slider class. -/
def handleMouseDown (container : Option Rect) (tgt : EventTarget)
    (clientX : ℚ) (s : PlayerState) : PlayerState :=
  if tgt.inDivider || tgt.isSlider then
    { s with isDragging := true,
             sliderValue := JSNum.num (calculatePosition container clientX) }
  else s

/-- Source lines 407-411, handleMouseMove: ignored unless a drag is in
progress, otherwise move the divider to the pointer position. -/
def handleMouseMove (container : Option Rect) (clientX : ℚ)
    (s : PlayerState) : PlayerState :=
  if !s.isDragging then s
  else { s with sliderValue := JSNum.num (calculatePosition container clientX) }

/-- Source lines 413-415, handleMouseUp: end the drag. -/
def handleMouseUp (s : PlayerState) : PlayerState :=
  { s with isDragging := false }

/-- Source lines 557-561, togglePlayback: the container click handler.  It
returns unchanged when a drag is in progress or the click originated on
the compare-slider input, and otherwise flips isPlaying. -/
def togglePlayback (tgt : EventTarget) (s : PlayerState) : PlayerState :=
  if s.isDragging || tgt.isSlider then s
  else { s with isPlaying := !s.isPlaying }

/-- Source lines 436-449, toggleMuted (imperative handle): compute the new
muted flag; when unmuting, issue play to both surfaces (both refs are
attached in a mounted component); store the new flag and return its
negation, i.e. whether audio is now on. -/
def toggleMuted (s : PlayerState) : PlayerState × Bool :=
  let newMuted := !s.isMuted
  let s1 :=
    if !newMuted then
      { s with videoA := { s.videoA with playing := true },
               videoB := { s.videoB with playing := true } }
    else s
  ({ s1 with isMuted := newMuted }, !newMuted)

/-- Source line 453, the isMuted query of the imperative handle. -/
def queryMuted (s : PlayerState) : Bool :=
  s.isMuted

/-- Source lines 500-508, the muted-sync effect: copy isMuted onto both
video elements. -/
def mutedSyncEffect (s : PlayerState) : PlayerState :=
  { s with videoA := { s.videoA with muted := s.isMuted },
           videoB := { s.videoB with muted := s.isMuted } }

/-- Source lines 511-525, the audio cross-fade effect: when unmuted,
normalize a NaN slider value to 50, give the Reality surface (videoB)
volume value over 100 and the Simulation surface (videoA) the complement;
when muted, write nothing. -/
def crossFadeEffect (s : PlayerState) : PlayerState :=
  if !s.isMuted then
    let safeValue := safeNum s.sliderValue
    let realityVolume := safeValue / 100
    let simulationVolume := 1 - realityVolume
    { s with videoA := { s.videoA with volume := simulationVolume },
             videoB := { s.videoB with volume := realityVolume } }
  else s

/-- Source lines 467-481, syncVideos (the timeupdate handler of videoA):
when the two playback clocks differ by more than 0.1 seconds, copy the
Background time (videoA) onto the Foreground surface (videoB). -/
def syncVideos (s : PlayerState) : PlayerState :=
  if 1 / 10 < |s.videoA.currentTime - s.videoB.currentTime| then
    { s with videoB := { s.videoB with currentTime := s.videoA.currentTime } }
  else s

/-- One video surface right after mount: the mount effect (lines 528-550)
sets both volumes to one half and issues play; the muted attribute starts
from the initial isMuted, which is true. -/
def initialSurface : VideoSurface :=
  { currentTime := 0, volume := 1 / 2, muted := true, playing := true }

/-- The component state right after mount: the useState defaults
(sliderValue 50, isMuted true, isDragging false) with isPlaying set true
by the mount effect. -/
def initialState : PlayerState :=
  { sliderValue := JSNum.num 50, isPlaying := true, isMuted := true,
    isDragging := false, videoA := initialSurface, videoB := initialSurface }

/-- The mounted state with the mute gate opened, used as a concrete
unmuted sample point. -/
def unmutedInitial : PlayerState :=
  { initialState with isMuted := false }

/-- Claim C1, counterexample: handleSliderChange with the numeric input
150 stores 150 itself, not the clamp of 150 into the interval from 0 to
100 (which is 100), and the stored value lies outside that interval; so
the stored position is neither clamped nor always in range. -/
theorem C1_counterexample :
    (handleSliderChange (JSNum.num 150) initialState).sliderValue
        = JSNum.num 150 ∧
      JSNum.num 150 ≠ JSNum.num (max 0 (min 100 (150 : ℚ))) ∧
      ¬ (150 : ℚ) ≤ 100 := by
  refine ⟨rfl, ?_, by norm_num⟩
  have h : (max 0 (min 100 (150 : ℚ))) = 100 := by norm_num
  rw [h]
  simp only [ne_eq, JSNum.num.injEq]
  norm_num

/-- Claim C1 (amended): handleSliderChange stores the raw numeric
conversion of the input with no clamping and no NaN fallback; the
fallback to 50 happens only when the value is read back through
safeSliderValue, which replaces NaN by 50 but still applies no clamping. -/
theorem C1_amended (v : JSNum) (s : PlayerState) :
    (handleSliderChange v s).sliderValue = v ∧
      (v = JSNum.nan → safeSliderValue (handleSliderChange v s) = 50) ∧
      (∀ q : ℚ, v = JSNum.num q →
        safeSliderValue (handleSliderChange v s) = q) := by
  refine ⟨rfl, ?_, ?_⟩
  · rintro rfl
    rfl
  · rintro q rfl
    rfl

/-- Claim C1 (amended), witness at the NaN input on the mounted state. -/
theorem C1_amended_witness :
    (handleSliderChange JSNum.nan initialState).sliderValue = JSNum.nan ∧
      safeSliderValue (handleSliderChange JSNum.nan initialState) = 50 :=
  ⟨(C1_amended JSNum.nan initialState).1,
    (C1_amended JSNum.nan initialState).2.1 rfl⟩

/-- Claim C2: whenever the mute gate is open, the cross-fade effect gives
the Foreground surface (videoB) volume p over 100 and the Background
surface (videoA) the complement, the two volumes sum to 1, and a NaN
position is first normalized to 50. -/
theorem C2_crossFade (s : PlayerState) (h : s.isMuted = false) :
    (crossFadeEffect s).videoB.volume = safeNum s.sliderValue / 100 ∧
      (crossFadeEffect s).videoA.volume = 1 - safeNum s.sliderValue / 100 ∧
      (crossFadeEffect s).videoA.volume + (crossFadeEffect s).videoB.volume
        = 1 ∧
      (s.sliderValue = JSNum.nan → (crossFadeEffect s).videoB.volume = 1 / 2) := by
  have hB : (crossFadeEffect s).videoB.volume = safeNum s.sliderValue / 100 := by
    simp [crossFadeEffect, h]
  have hA : (crossFadeEffect s).videoA.volume
      = 1 - safeNum s.sliderValue / 100 := by
    simp [crossFadeEffect, h]
  refine ⟨hB, hA, ?_, ?_⟩
  · rw [hA, hB]; ring
  · intro hnan
    rw [hB, hnan]
    norm_num [safeNum]

/-- Claim C2, witness: the mounted, unmuted state at divider 50 gets
volumes one half and one half, which sum to 1. -/
theorem C2_crossFade_witness :
    unmutedInitial.isMuted = false ∧
      (crossFadeEffect unmutedInitial).videoB.volume
          = safeNum unmutedInitial.sliderValue / 100 ∧
      (crossFadeEffect unmutedInitial).videoA.volume
        + (crossFadeEffect unmutedInitial).videoB.volume = 1 :=
  ⟨rfl, (C2_crossFade unmutedInitial rfl).1,
    (C2_crossFade unmutedInitial rfl).2.2.1⟩

/-- Claim C3: one sync tick copies the Background time (videoA) onto the
Foreground surface (videoB) exactly when the clocks differ by more than
0.1 seconds, changes nothing at all when they differ by at most 0.1
seconds, and never writes the Background surface. -/
theorem C3_syncVideos (s : PlayerState) :
    (1 / 10 < |s.videoA.currentTime - s.videoB.currentTime| →
        syncVideos s
          = { s with videoB :=
                { s.videoB with currentTime := s.videoA.currentTime } }) ∧
      (|s.videoA.currentTime - s.videoB.currentTime| ≤ 1 / 10 →
        syncVideos s = s) ∧
      (syncVideos s).videoA = s.videoA := by
  refine ⟨?_, ?_, ?_⟩
  · intro h
    unfold syncVideos
    rw [if_pos h]
  · intro h
    unfold syncVideos
    rw [if_neg (not_lt.mpr h)]
  · unfold syncVideos
    split <;> rfl

/-- A mounted state whose clocks differ by 0.2 seconds: Background at 1,
Foreground at 1.2. -/
def syncFar : PlayerState :=
  { initialState with
      videoA := { initialSurface with currentTime := 1 },
      videoB := { initialSurface with currentTime := 6 / 5 } }

/-- A mounted state whose clocks differ by 0.05 seconds: Background at 1,
Foreground at 1.05. -/
def syncNear : PlayerState :=
  { initialState with
      videoA := { initialSurface with currentTime := 1 },
      videoB := { initialSurface with currentTime := 21 / 20 } }

/-- Claim C3, witness: with a 0.2 second gap the tick rewrites the
Foreground clock to the Background clock; with a 0.05 second gap the tick
changes nothing. -/
theorem C3_syncVideos_witness :
    1 / 10 < |syncFar.videoA.currentTime - syncFar.videoB.currentTime| ∧
      (syncVideos syncFar).videoB.currentTime = syncFar.videoA.currentTime ∧
      |syncNear.videoA.currentTime - syncNear.videoB.currentTime| ≤ 1 / 10 ∧
      syncVideos syncNear = syncNear := by
  have e1 : syncFar.videoA.currentTime - syncFar.videoB.currentTime
      = -(1 / 5) := by
    norm_num [syncFar, initialSurface]
  have e2 : syncNear.videoA.currentTime - syncNear.videoB.currentTime
      = -(1 / 20) := by
    norm_num [syncNear, initialSurface]
  have h1 : 1 / 10 < |syncFar.videoA.currentTime - syncFar.videoB.currentTime| := by
    rw [e1, abs_neg, abs_of_nonneg (by norm_num : (0 : ℚ) ≤ 1 / 5)]
    norm_num
  have h2 : |syncNear.videoA.currentTime - syncNear.videoB.currentTime| ≤ 1 / 10 := by
    rw [e2, abs_neg, abs_of_nonneg (by norm_num : (0 : ℚ) ≤ 1 / 20)]
    norm_num
  refine ⟨h1, ?_, h2, (C3_syncVideos syncNear).2.1 h2⟩
  rw [(C3_syncVideos syncFar).1 h1]

/-- A 200-pixel-wide container starting at the origin, a concrete layout
for drag scenarios. -/
def sampleRect : Rect :=
  { left := 0, width := 200 }

/-- An event target inside the divider control. -/
def dividerTarget : EventTarget :=
  { inDivider := true, isSlider := false }

/-- An event target elsewhere in the container: neither inside the
divider nor carrying the compare-slider class. -/
def containerTarget : EventTarget :=
  { inDivider := false, isSlider := false }

/-- Claim C4, counterexample: after a full mouse drag sequence (mouse
down on the divider, a move, mouse up) the isDragging flag is false
again, so the container click that follows the drag does flip isPlaying
(from true to false here), contradicting the claim that it never
toggles. -/
theorem C4_counterexample :
    (togglePlayback containerTarget
        (handleMouseUp
          (handleMouseMove (some sampleRect) 120
            (handleMouseDown (some sampleRect) dividerTarget 100
              initialState)))).isPlaying
      = !initialState.isPlaying := by
  rfl

/-- Claim C4 (amended): a container click is suppressed only while a drag
is still in progress (isDragging true); a container click off the slider
with no drag in progress flips isPlaying exactly once; and after endDrag
has reset the flag, a following container click does flip isPlaying. -/
theorem C4_amended (s : PlayerState) (tgt : EventTarget) :
    (s.isDragging = true → togglePlayback tgt s = s) ∧
      (s.isDragging = false → tgt.isSlider = false →
        (togglePlayback tgt s).isPlaying = !s.isPlaying) ∧
      (tgt.isSlider = false →
        (togglePlayback tgt (handleMouseUp s)).isPlaying = !s.isPlaying) := by
  refine ⟨?_, ?_, ?_⟩
  · intro h
    simp [togglePlayback, h]
  · intro h hs
    simp [togglePlayback, h, hs]
  · intro hs
    simp [togglePlayback, handleMouseUp, hs]

/-- Claim C4 (amended), witness on the mounted state: a click while
dragging changes nothing, a click with no drag flips isPlaying, and a
click right after a mouse up flips it as well. -/
theorem C4_amended_witness :
    ({ initialState with isDragging := true } : PlayerState).isDragging
        = true ∧
      togglePlayback containerTarget { initialState with isDragging := true }
        = { initialState with isDragging := true } ∧
      initialState.isDragging = false ∧
      containerTarget.isSlider = false ∧
      (togglePlayback containerTarget initialState).isPlaying
        = !initialState.isPlaying ∧
      (togglePlayback containerTarget (handleMouseUp initialState)).isPlaying
        = !initialState.isPlaying :=
  ⟨rfl,
    (C4_amended { initialState with isDragging := true } containerTarget).1 rfl,
    rfl, rfl,
    (C4_amended initialState containerTarget).2.1 rfl rfl,
    (C4_amended initialState containerTarget).2.2 rfl⟩

/-- Claim C5: while muted, a divider change followed by the cross-fade
effect leaves the whole state untouched by the effect, in particular both
volume fields; and the muted-sync effect keeps both surfaces muted, so no
audible output is produced at any divider position. -/
theorem C5_mutedNoVolumeWrite (s : PlayerState) (v : JSNum)
    (h : s.isMuted = true) :
    crossFadeEffect (handleSliderChange v s) = handleSliderChange v s ∧
      (crossFadeEffect (handleSliderChange v s)).videoA.volume
          = s.videoA.volume ∧
      (crossFadeEffect (handleSliderChange v s)).videoB.volume
          = s.videoB.volume ∧
      (mutedSyncEffect (handleSliderChange v s)).videoA.muted = true ∧
      (mutedSyncEffect (handleSliderChange v s)).videoB.muted = true := by
  have hcf : crossFadeEffect (handleSliderChange v s)
      = handleSliderChange v s := by
    simp [crossFadeEffect, handleSliderChange, h]
  refine ⟨hcf, ?_, ?_, ?_, ?_⟩
  · rw [hcf]; rfl
  · rw [hcf]; rfl
  · simp [mutedSyncEffect, handleSliderChange, h]
  · simp [mutedSyncEffect, handleSliderChange, h]

/-- Claim C5, witness: the mounted muted state, divider moved to 80. -/
theorem C5_mutedNoVolumeWrite_witness :
    initialState.isMuted = true ∧
      crossFadeEffect (handleSliderChange (JSNum.num 80) initialState)
          = handleSliderChange (JSNum.num 80) initialState ∧
      (mutedSyncEffect (handleSliderChange (JSNum.num 80) initialState)).videoB.muted
        = true :=
  ⟨rfl, (C5_mutedNoVolumeWrite initialState (JSNum.num 80) rfl).1,
    (C5_mutedNoVolumeWrite initialState (JSNum.num 80) rfl).2.2.2.2⟩

/-- Claim C6: starting from muted state m, toggleMuted stores not m,
returns m (equivalently, the negation of the stored flag, i.e. whether
audio is now audible), a subsequent queryMuted answers not m, and when
the call unmutes (m true) a play command has been issued to both
surfaces. -/
theorem C6_toggleMuted (s : PlayerState) (m : Bool) (h : s.isMuted = m) :
    (toggleMuted s).1.isMuted = !m ∧
      (toggleMuted s).2 = m ∧
      queryMuted (toggleMuted s).1 = !m ∧
      (m = true →
        (toggleMuted s).1.videoA.playing = true ∧
          (toggleMuted s).1.videoB.playing = true) := by
  subst h
  cases hm : s.isMuted <;>
    simp [toggleMuted, queryMuted, hm]

/-- Claim C6, witness on the mounted (muted) state: the call reports that
audio is now on, the stored flag flips to false, and play was issued to
both surfaces. -/
theorem C6_toggleMuted_witness :
    initialState.isMuted = true ∧
      (toggleMuted initialState).1.isMuted = false ∧
      (toggleMuted initialState).2 = true ∧
      queryMuted (toggleMuted initialState).1 = false ∧
      (toggleMuted initialState).1.videoA.playing = true := by
  have h := C6_toggleMuted initialState true rfl
  exact ⟨rfl, h.1, h.2.1, h.2.2.1, (h.2.2.2 rfl).1⟩

/-- Claim C7: a pointer move (mouse or touch) delivered while no drag is
in progress leaves the whole player state unchanged, whatever the
container geometry and coordinate. -/
theorem C7_moveWithoutDrag (container : Option Rect) (x : ℚ)
    (s : PlayerState) (h : s.isDragging = false) :
    handleMouseMove container x s = s ∧ handleTouchMove container x s = s := by
  constructor <;> simp [handleMouseMove, handleTouchMove, h]

/-- Claim C7, witness: a stray mouse move and a stray touch move on the
mounted state change nothing. -/
theorem C7_moveWithoutDrag_witness :
    initialState.isDragging = false ∧
      handleMouseMove (some sampleRect) 37 initialState = initialState ∧
      handleTouchMove (some sampleRect) 37 initialState = initialState :=
  ⟨rfl, (C7_moveWithoutDrag (some sampleRect) 37 initialState rfl).1,
    (C7_moveWithoutDrag (some sampleRect) 37 initialState rfl).2⟩

/-- Claim C8: with no container attached calculatePosition returns the
neutral 50; with a container it returns the clamp of the relative
percentage into the interval from 0 to 100, hence a value between 0 and
100. -/
theorem C8_calculatePosition (x : ℚ) (r : Rect) :
    calculatePosition none x = 50 ∧
      calculatePosition (some r) x
          = max 0 (min 100 ((x - r.left) / r.width * 100)) ∧
      0 ≤ calculatePosition (some r) x ∧
      calculatePosition (some r) x ≤ 100 := by
  refine ⟨rfl, rfl, le_max_left 0 _, ?_⟩
  exact max_le (by norm_num) (min_le_left 100 _)

/-- Claim C9, counterexample: a touch start whose target is neither the
divider control nor the slider input still begins a drag (isDragging
becomes true) and moves the divider, contradicting the claim that a drag
never starts when the pointer-down lands elsewhere. -/
theorem C9_counterexample :
    (handleTouchStart (some sampleRect) containerTarget 30
          initialState).isDragging = true ∧
      containerTarget.inDivider = false ∧
      containerTarget.isSlider = false := by
  exact ⟨rfl, rfl, rfl⟩

/-- Claim C9 (amended): a mouse down begins a drag, and moves the divider
to the pointer position, exactly when it targets the divider control or
the slider input; a touch start begins a drag and moves the divider
unconditionally, wherever it lands. -/
theorem C9_amended (container : Option Rect) (tgt : EventTarget) (x : ℚ)
    (s : PlayerState) (h : s.isDragging = false) :
    ((handleMouseDown container tgt x s).isDragging
        = (tgt.inDivider || tgt.isSlider)) ∧
      ((tgt.inDivider || tgt.isSlider) = true →
        (handleMouseDown container tgt x s).sliderValue
          = JSNum.num (calculatePosition container x)) ∧
      (handleTouchStart container tgt x s).isDragging = true ∧
      (handleTouchStart container tgt x s).sliderValue
        = JSNum.num (calculatePosition container x) := by
  cases htgt : (tgt.inDivider || tgt.isSlider) <;>
    simp [handleMouseDown, handleTouchStart, htgt, h]

/-- Claim C9 (amended), witness: on the mounted state, a mouse down on
the divider starts a drag and moves it, and a touch start on a plain
container target starts a drag as well. -/
theorem C9_amended_witness :
    initialState.isDragging = false ∧
      (handleMouseDown (some sampleRect) dividerTarget 100
          initialState).isDragging
        = (dividerTarget.inDivider || dividerTarget.isSlider) ∧
      (handleTouchStart (some sampleRect) containerTarget 100
          initialState).isDragging = true :=
  ⟨rfl,
    (C9_amended (some sampleRect) dividerTarget 100 initialState rfl).1,
    (C9_amended (some sampleRect) containerTarget 100 initialState rfl).2.2.1⟩

/-- Claim C10: toggleMuted is an involution on the muted flag: two
consecutive calls restore the original isMuted, and their return values
are negations of each other. -/
theorem C10_toggleMutedInvolution (s : PlayerState) :
    (toggleMuted (toggleMuted s).1).1.isMuted = s.isMuted ∧
      (toggleMuted (toggleMuted s).1).2 = !(toggleMuted s).2 := by
  cases hm : s.isMuted <;>
    simp [toggleMuted, hm]

end ComparePlayer
